import Mathlib

/-!
Shallow embedding of the EPG scraper (src/epg_scraper.py).

Instants are modelled as integer microsecond counts (Python datetime has
microsecond resolution).  The target zone America/Sao_Paulo has used the
fixed offset UTC-03:00 since DST was abolished in 2019, so the zone
conversion performed by convert_to_local is modelled as adding a constant
offset; all dates relevant to the development are in that era.

A value in "local microseconds" is the microsecond count of the wall-clock
reading in the target zone; a value in "UTC microseconds" counts from the
Unix epoch.  Comparisons between timezone-aware datetimes in the source
compare absolute instants, which coincides with comparing the shifted
integer representations, so the arithmetic below is faithful.
-/

/-- Microseconds per civil day. -/
def usPerDay : Int := 86400000000

/-- Fixed UTC offset of America/Sao_Paulo (UTC-03:00), in microseconds. -/
def tzOffsetUs : Int := -10800000000

/-- Embeds datetime.astimezone(TARGET_TIMEZONE) : shift a UTC instant to
the target zone's wall clock (source: convert_to_local). -/
def convert_to_local (dt : Int) : Int := dt + tzOffsetUs

/-- Embeds the .date() projection of a target-zone datetime: the civil day
number containing a local instant (floor division, as Python date
extraction rounds toward minus infinity). -/
def localDate (t : Int) : Int := t / usPerDay

/-- Leap-year test of the proleptic Gregorian calendar (as used by
Python's datetime module). -/
def isLeap (y : Int) : Bool := (y % 4 == 0 && y % 100 != 0) || y % 400 == 0

/-- Number of days in a month of the proleptic Gregorian calendar. -/
def daysInMonth (y m : Int) : Int :=
  if m = 2 then (if isLeap y then 29 else 28)
  else if m = 4 ∨ m = 6 ∨ m = 9 ∨ m = 11 then 30
  else 31

/-- Days from 1970-01-01 to the given civil date (standard civil-calendar
day count; all intermediate quantities are nonnegative for years >= 1, so
the floor divisions agree with Python's datetime ordinal arithmetic). -/
def daysFromCivil (y m d : Int) : Int :=
  let y1 := if m ≤ 2 then y - 1 else y
  let era := y1 / 400
  let yoe := y1 - era * 400
  let m1 := if m > 2 then m - 3 else m + 9
  let doy := (153 * m1 + 2) / 5 + d - 1
  let doe := yoe * 365 + yoe / 4 - yoe / 100 + doy
  era * 146097 + doe - 719468

/-!
Model of datetime.strptime(dt_part, "%Y%m%d%H%M%S") as used by
parse_xmltv_time.  CPython compiles the format to the regular expression
\d\d\d\d  (1[0-2]|0[1-9]|[1-9])  (3[0-1]|[1-2]\d|0[1-9]|[1-9]| [1-9])
(2[0-3]|[0-1]\d|\d)  ([0-5]\d|\d)  (6[0-1]|[0-5]\d|\d)
and matches it with backtracking; a successful match may leave unconsumed
characters, which then raise "unconverted data remains".  The matcher
below reproduces that search order: alternatives are tried left to right,
and a failure in a later field backtracks into the remaining alternatives
of earlier fields, while leftover input is only checked after the whole
pattern has matched.  Digits are modelled as ASCII digits.
-/

/-- Match a fixed sequence of character classes against a prefix of the
input, returning the consumed characters and the rest. -/
def matchSeq : List (Char → Bool) → List Char → Option (List Char × List Char)
  | [], cs => some ([], cs)
  | _ :: _, [] => none
  | p :: ps, c :: cs =>
      if p c then
        match matchSeq ps cs with
        | some (m, rest) => some (c :: m, rest)
        | none => none
      else none

/-- Numeric value of a matched group, as int() reads it: leading
whitespace (from the space-padded %d alternative) is stripped. -/
def digitsVal (cs : List Char) : Int :=
  (cs.dropWhile (fun c => c == ' ')).foldl
    (fun acc c => acc * 10 + ((c.toNat : Int) - 48)) 0

/-- Try the alternatives of one regex field in order; on success run the
continuation, and backtrack to the next alternative when it fails. -/
def tryField (alts : List (List (Char → Bool))) (cs : List Char)
    (k : Int → List Char → Option α) : Option α :=
  match alts with
  | [] => none
  | a :: rest =>
      match matchSeq a cs with
      | some (m, cs1) =>
          match k (digitsVal m) cs1 with
          | some r => some r
          | none => tryField rest cs k
      | none => tryField rest cs k

/-- ASCII digit class (regex \d). -/
def isDigitC (c : Char) : Bool := c.isDigit

/-- Character range class (regex [lo-hi]). -/
def between (lo hi c : Char) : Bool :=
  decide (lo.toNat ≤ c.toNat ∧ c.toNat ≤ hi.toNat)

/-- Literal character class. -/
def chIs (x c : Char) : Bool := c == x

/-- Regex alternatives for %Y. -/
def yearAlts : List (List (Char → Bool)) :=
  [[isDigitC, isDigitC, isDigitC, isDigitC]]

/-- Regex alternatives for %m. -/
def monthAlts : List (List (Char → Bool)) :=
  [[chIs '1', between '0' '2'], [chIs '0', between '1' '9'], [between '1' '9']]

/-- Regex alternatives for %d (the last one matches a space-padded
single-digit day). -/
def dayAlts : List (List (Char → Bool)) :=
  [[chIs '3', between '0' '1'], [between '1' '2', isDigitC],
   [chIs '0', between '1' '9'], [between '1' '9'],
   [chIs ' ', between '1' '9']]

/-- Regex alternatives for %H. -/
def hourAlts : List (List (Char → Bool)) :=
  [[chIs '2', between '0' '3'], [between '0' '1', isDigitC], [isDigitC]]

/-- Regex alternatives for %M. -/
def minuteAlts : List (List (Char → Bool)) :=
  [[between '0' '5', isDigitC], [isDigitC]]

/-- Regex alternatives for %S. -/
def secondAlts : List (List (Char → Bool)) :=
  [[chIs '6', between '0' '1'], [between '0' '5', isDigitC], [isDigitC]]

/-- Backtracking match of the whole "%Y%m%d%H%M%S" pattern, returning the
six field values and the unconsumed input of the first match found in the
regex engine's preference order. -/
def strptimeMatch (cs : List Char) :
    Option ((Int × Int × Int × Int × Int × Int) × List Char) :=
  tryField yearAlts cs fun y cs1 =>
  tryField monthAlts cs1 fun mo cs2 =>
  tryField dayAlts cs2 fun d cs3 =>
  tryField hourAlts cs3 fun h cs4 =>
  tryField minuteAlts cs4 fun mi cs5 =>
  tryField secondAlts cs5 fun s cs6 =>
  some ((y, mo, d, h, mi, s), cs6)

/-- Embeds datetime.strptime(dt_part, "%Y%m%d%H%M%S"): the regex match
must consume the whole string ("unconverted data remains" otherwise), and
the datetime constructor then rejects year 0, days beyond the month's
length, and the leap-second values 60/61 admitted by the %S class. -/
def strptimeYmdHMS (cs : List Char) :
    Option (Int × Int × Int × Int × Int × Int) :=
  match strptimeMatch cs with
  | none => none
  | some ((y, mo, d, h, mi, s), rest) =>
      if rest = [] then
        if 1 ≤ y ∧ d ≤ daysInMonth y mo ∧ s ≤ 59 then
          some (y, mo, d, h, mi, s)
        else none
      else none

/-- Embeds parse_xmltv_time: slice the first 14 characters
(time_str[:14]), parse them with strptime, and attach UTC
(dt.replace(tzinfo=UTC_TIMEZONE)).  Any offset suffix after position 14
is discarded by the slice.  The result is the instant in UTC
microseconds; None models the ValueError/TypeError raised on failure. -/
def parse_xmltv_time (time_str : String) : Option Int :=
  let dt_part := time_str.toList.take 14
  match strptimeYmdHMS dt_part with
  | none => none
  | some (y, mo, d, h, mi, s) =>
      some (daysFromCivil y mo d * usPerDay + (h * 3600 + mi * 60 + s) * 1000000)

/-- Embeds get_day_boundaries: date_only = date_obj.date(), start =
combine(date_only, time.min) = local midnight, end = combine(date_only,
time.max) = 23:59:59.999999 of the same date (the last representable
microsecond of the day), both in the target zone. -/
def get_day_boundaries (date_obj : Int) : Int × Int :=
  let date_only := localDate date_obj
  (date_only * usPerDay, date_only * usPerDay + (usPerDay - 1))

/-- Embeds format_time_12h: strftime("%I:%M %p").lstrip(zeros).  Since %I
is in 01..12, stripping leading zeros leaves the plain hour digits. -/
def format_time_12h (t : Int) : String :=
  let secOfDay := (t % usPerDay) / 1000000
  let h24 := secOfDay / 3600
  let mi := (secOfDay % 3600) / 60
  let h12 := if h24 % 12 = 0 then 12 else h24 % 12
  let ampm := if h24 < 12 then "AM" else "PM"
  toString h12 ++ ":" ++ (if mi < 10 then "0" ++ toString mi else toString mi)
    ++ " " ++ ampm

/-- One parsed <programme> element, as process_channel reads it:
prog.get attributes may be absent, and a title/desc element may be
missing or have empty text (a missing element and a None text are
behaviourally identical in the source, so both are modelled as none). -/
structure ProgrammeRecord where
  start : Option String
  stop : Option String
  title : Option String
  desc : Option String
deriving DecidableEq

/-- One emitted schedule dictionary.  start_time and end_time hold the
adjusted local instants adj_start / adj_end; the source renders them with
format_time_12h when serialising. -/
structure ScheduleEntry where
  show_name : String
  show_logo : String
  start_time : Int
  end_time : Int
  episode_description : String
deriving DecidableEq

/-- Embeds: title.text if title is not None and title.text else
"Unknown" (an empty string is falsy in Python). -/
def showNameFrom (t : Option String) : String :=
  match t with
  | some s => if s = "" then "Unknown" else s
  | none => "Unknown"

/-- Embeds: desc.text if desc is not None and desc.text else the empty
string. -/
def descFrom (t : Option String) : String :=
  match t with
  | some s => if s = "" then "" else s
  | none => ""

/-- Embeds the body of the per-programme loop of process_channel after
the two timestamps have parsed successfully: the if/elif chain that
assigns the programme to the today list, the tomorrow list, or neither.
today_date and tomorrow_date are the two local datetimes passed to
process_channel; start_utc and stop_utc are the parsed timestamps.  The
fourth branch mirrors the source's unreachable continuation elif. -/
def processParsed (today_date tomorrow_date start_utc stop_utc : Int)
    (show_name episode_desc : String) :
    List ScheduleEntry × List ScheduleEntry :=
  let start_local := convert_to_local start_utc
  let stop_local := convert_to_local stop_utc
  let show_date := localDate start_local
  let today_target := localDate today_date
  let tomorrow_target := localDate tomorrow_date
  let tb := get_day_boundaries today_date
  let mb := get_day_boundaries tomorrow_date
  if show_date = today_target then
    let adj_start := start_local
    let adj_end := stop_local
    let adj_end := if localDate adj_end > today_target then tb.2 else adj_end
    let adj_start := if adj_start < tb.1 then tb.1 else adj_start
    let adj_end := if adj_end > tb.2 then tb.2 else adj_end
    ([⟨show_name, "", adj_start, adj_end, episode_desc⟩], [])
  else if show_date = tomorrow_target then
    let adj_start := start_local
    let adj_end := stop_local
    let adj_end := if localDate adj_end > tomorrow_target then mb.2 else adj_end
    let adj_start := if adj_start < mb.1 then mb.1 else adj_start
    let adj_end := if adj_end > mb.2 then mb.2 else adj_end
    ([], [⟨show_name, "", adj_start, adj_end, episode_desc⟩])
  else if show_date < today_target ∧ localDate stop_local ≥ today_target then
    let adj_start := tb.1
    let adj_end := stop_local
    let adj_end := if adj_end > tb.2 then tb.2 else adj_end
    ([⟨show_name, "", adj_start, adj_end, episode_desc⟩], [])
  else if show_date = today_target ∧ localDate stop_local > tomorrow_target then
    let adj_start := mb.1
    let adj_end := stop_local
    let adj_end := if adj_end > mb.2 then mb.2 else adj_end
    ([], [⟨show_name, "", adj_start, adj_end, episode_desc⟩])
  else ([], [])

/-- Embeds one iteration of the programme loop of process_channel,
including the try/except: a parse failure on either timestamp (including
a missing attribute) makes the record contribute nothing. -/
def processProgramme (today_date tomorrow_date : Int) (p : ProgrammeRecord) :
    List ScheduleEntry × List ScheduleEntry :=
  match p.start.bind parse_xmltv_time, p.stop.bind parse_xmltv_time with
  | some start_utc, some stop_utc =>
      processParsed today_date tomorrow_date start_utc stop_utc
        (showNameFrom p.title) (descFrom p.desc)
  | _, _ => ([], [])

/-- Embeds the programme loop of process_channel for one channel's
records: today_shows and tomorrow_shows are built by appending each
record's contributions in feed order. -/
def process_channel (today_date tomorrow_date : Int)
    (programmes : List ProgrammeRecord) :
    List ScheduleEntry × List ScheduleEntry :=
  programmes.foldl
    (fun acc p =>
      let r := processProgramme today_date tomorrow_date p
      (acc.1 ++ r.1, acc.2 ++ r.2))
    ([], [])

/-!
Theorems settling the specification claims.
-/

/-- C8: the clipping computation is deterministic and idempotent:
evaluating it twice on the same programme record and day-window pair
yields identical output, entry for entry.  (The embedding is a pure
function of its inputs, exactly as the source loop body touches no state
outside the per-record locals.) -/
theorem clipper_deterministic (td tmd : Int) (p : ProgrammeRecord) :
    (processProgramme td tmd p, processProgramme td tmd p).1 =
      (processProgramme td tmd p, processProgramme td tmd p).2 := rfl

/-- C3 counterexample: for the local date 2025-12-17 the window end
produced by get_day_boundaries (23:59:59.999999 of the same date) is not
the window start of the following date; the two differ by one
microsecond. -/
theorem day_window_end_not_next_start :
    (get_day_boundaries 1765929600000000).2 ≠
      (get_day_boundaries (1765929600000000 + usPerDay)).1 := by decide

/-- C3 amended: get_day_boundaries returns the closed window
[local midnight, 23:59:59.999999] of the input's date: window_end is the
fixed end-of-day sentinel, exactly one microsecond short of the next
date's window_start, so adjacent windows leave a one-microsecond gap. -/
theorem day_boundaries_sentinel (t : Int) :
    (get_day_boundaries t).1 = localDate t * usPerDay ∧
    (get_day_boundaries t).2 = localDate t * usPerDay + (usPerDay - 1) ∧
    (get_day_boundaries (t + usPerDay)).1 = (get_day_boundaries t).2 + 1 := by
  refine ⟨rfl, rfl, ?_⟩
  simp only [get_day_boundaries, localDate, usPerDay]
  omega

/-- C4 counterexample: a timestamp with no UTC-offset suffix, and one
with an unparseable suffix, are both accepted by parse_xmltv_time and
interpreted as UTC (the claim requires both to be rejected). -/
theorem offsetless_timestamp_accepted :
    parse_xmltv_time "20251218013000" = some 1766021400000000 ∧
    parse_xmltv_time "20251218013000 badoffset" = some 1766021400000000 := by
  decide

/-- C4 amended: parse_xmltv_time never examines anything after the first
14 characters, so the offset suffix (present, absent, or unparseable)
cannot affect the result and the instant is always interpreted as UTC;
a numeric portion that strptime cannot match still fails. -/
theorem offset_suffix_ignored (s t1 t2 : String) (h : s.length = 14) :
    parse_xmltv_time (s ++ t1) = parse_xmltv_time (s ++ t2) ∧
    parse_xmltv_time "2025XX18013000" = none := by
  have hl : s.data.length = 14 := h
  have key : ∀ t : String, (s ++ t).toList.take 14 = s.toList := by
    intro t
    show ((s ++ t).data).take 14 = s.data
    rw [String.data_append, ← hl, List.take_left]
  constructor
  · unfold parse_xmltv_time
    rw [key t1, key t2]
  · decide

/-- C4 amended witness: instantiation at the well-formed timestamp
"20251218013000" with the suffixes " +0300" and " +0000". -/
theorem offset_suffix_ignored_witness :
    ("20251218013000" : String).length = 14 ∧
    (parse_xmltv_time ("20251218013000" ++ " +0300") =
        parse_xmltv_time ("20251218013000" ++ " +0000") ∧
      parse_xmltv_time "2025XX18013000" = none) :=
  ⟨by decide, offset_suffix_ignored "20251218013000" " +0300" " +0000" (by decide)⟩

/-- C1: a programme whose start falls on the today target date never
contributes an entry to the tomorrow list: the branch of process_channel
meant to add the after-midnight continuation is an unreachable elif (its
guard repeats the condition of the first branch), so an overnight
programme is truncated to today's sentinel end and the tomorrow
continuation required by the claim is never emitted. -/
theorem today_show_never_continues_to_tomorrow (td tmd : Int)
    (p : ProgrammeRecord) (su tu : Int)
    (h1 : p.start.bind parse_xmltv_time = some su)
    (h2 : p.stop.bind parse_xmltv_time = some tu)
    (hd : localDate (convert_to_local su) = localDate td) :
    (processProgramme td tmd p).2 = [] := by
  unfold processProgramme
  rw [h1, h2]
  simp only [processParsed, convert_to_local, localDate, usPerDay, tzOffsetUs,
    get_day_boundaries] at hd ⊢
  split_ifs <;> rfl

/-- C1 witness: the specification's own scenario, P =
[2025-12-18T01:30:00Z, 2025-12-18T04:00:00Z) against today =
2025-12-17 local (UTC-03:00): the programme starts inside today's window
and ends inside tomorrow's, yet the tomorrow schedule receives nothing. -/
theorem today_show_never_continues_to_tomorrow_witness :
    localDate (convert_to_local 1766021400000000) =
      localDate 1765929600000000 ∧
    (processProgramme 1765929600000000 1766016000000000
        (ProgrammeRecord.mk (some "20251218013000 +0000")
          (some "20251218040000 +0000") (some "Movie") (some "D"))).2 = [] :=
  ⟨by decide,
    today_show_never_continues_to_tomorrow 1765929600000000 1766016000000000
      (ProgrammeRecord.mk (some "20251218013000 +0000")
        (some "20251218040000 +0000") (some "Movie") (some "D"))
      1766021400000000 1766030400000000 (by decide) (by decide) (by decide)⟩

/-- C2 counterexample: the programme [2025-12-18T02:00:00Z,
2025-12-18T03:00:00Z) has strictly positive length, yet against today =
2025-12-18 local it produces an entry whose display_start equals its
display_end (both the local midnight), violating the claimed strict
ordering display_start < display_end. -/
theorem zero_duration_entry_emitted :
    (1766023200000000 : Int) < 1766026800000000 ∧
    (processParsed 1766016000000000 1766102400000000 1766023200000000
        1766026800000000 "S" "").1 =
      [ScheduleEntry.mk "S" "" 1766016000000000 1766016000000000 ""] ∧
    ¬ (1766016000000000 : Int) < 1766016000000000 := by decide

/-- C2 amended: for a programme with start <= stop, every emitted entry e
satisfies the non-strict chain window_start <= display_start <=
display_end <= window_end of the producing day's boundaries, where
window_end is the inclusive 23:59:59.999999 sentinel; equality
display_start = display_end is possible, so only the non-strict form of
the claimed invariant holds. -/
theorem entry_bounds_nonstrict (td tmd su tu : Int) (n d : String)
    (h : su ≤ tu) :
    (∀ e ∈ (processParsed td tmd su tu n d).1,
        (get_day_boundaries td).1 ≤ e.start_time ∧
          e.start_time ≤ e.end_time ∧
          e.end_time ≤ (get_day_boundaries td).2) ∧
    (∀ e ∈ (processParsed td tmd su tu n d).2,
        (get_day_boundaries tmd).1 ≤ e.start_time ∧
          e.start_time ≤ e.end_time ∧
          e.end_time ≤ (get_day_boundaries tmd).2) := by
  simp only [processParsed, get_day_boundaries, convert_to_local, localDate,
    usPerDay, tzOffsetUs]
  split_ifs <;>
    constructor <;>
    intro e he <;>
    simp only [List.mem_singleton, List.not_mem_nil] at he <;>
    subst he <;>
    dsimp only <;>
    omega

/-- C2 amended witness: the programme [2025-12-18T01:30:00Z,
2025-12-18T02:00:00Z) against today = 2025-12-17 local emits the local
entry 22:30-23:00, which satisfies the non-strict bounds of today's
window. -/
theorem entry_bounds_nonstrict_witness :
    (1766021400000000 : Int) ≤ 1766023200000000 ∧
    ((get_day_boundaries 1765929600000000).1 ≤
        (ScheduleEntry.mk "N" "" 1766010600000000 1766012400000000
          "D").start_time ∧
      (ScheduleEntry.mk "N" "" 1766010600000000 1766012400000000
          "D").start_time ≤
        (ScheduleEntry.mk "N" "" 1766010600000000 1766012400000000
          "D").end_time ∧
      (ScheduleEntry.mk "N" "" 1766010600000000 1766012400000000
          "D").end_time ≤
        (get_day_boundaries 1765929600000000).2) :=
  ⟨by decide,
    (entry_bounds_nonstrict 1765929600000000 1766016000000000
        1766021400000000 1766023200000000 "N" "D" (by decide)).1
      (ScheduleEntry.mk "N" "" 1766010600000000 1766012400000000 "D")
      (by decide)⟩

/-- C5 counterexample: a zero-length programme (start == stop ==
2025-12-18T12:00:00Z) starting on the today target date is not skipped:
it emits one (zero-duration) entry into the today schedule. -/
theorem zero_length_programme_emits :
    (processProgramme 1766016000000000 1766102400000000
        (ProgrammeRecord.mk (some "20251218120000 +0000")
          (some "20251218120000 +0000") (some "Z") none)).1 ≠ [] := by decide

/-- C5 amended: a zero-length programme is processed without error, but
it is only skipped when its local start date matches neither target day;
when the start date equals the today or tomorrow target date it emits
exactly one entry, and every entry it emits has zero duration. -/
theorem zero_length_characterization (td tmd su : Int) (n d : String) :
    (processParsed td tmd su su n d).1.length +
        (processParsed td tmd su su n d).2.length =
      (if localDate (convert_to_local su) = localDate td ∨
          localDate (convert_to_local su) = localDate tmd then 1 else 0) ∧
    ((processParsed td tmd su su n d).1 ++
        (processParsed td tmd su su n d).2).all
      (fun e => e.start_time == e.end_time) = true := by
  simp only [processParsed, get_day_boundaries, convert_to_local, localDate,
    usPerDay, tzOffsetUs]
  split_ifs <;>
    simp_all [List.all_cons, beq_iff_eq] <;>
    omega

/-- C6 counterexample: a programme whose start equals today's window_end
(the 23:59:59.999999 sentinel of 2025-12-17 local) is not excluded: it
emits an entry for that window, contradicting the claimed half-open
exclusivity. -/
theorem boundary_touch_emits_entry :
    convert_to_local 1766026799999999 =
      (get_day_boundaries 1765929600000000).2 ∧
    (processParsed 1765929600000000 1766016000000000 1766026799999999
        1766028599999999 "S" "").1 ≠ [] := by decide

/-- C6 amended: with adjacent target days, a programme touching a window
boundary is not excluded but clipped to a zero-duration entry: start ==
window_end (with stop after start) yields the entry
[window_end, window_end], and stop == window_start for a programme that
started on an earlier local date yields the entry
[window_start, window_start]. -/
theorem boundary_touch_zero_duration (td tmd su tu : Int) (n d : String)
    (hadj : localDate tmd = localDate td + 1) :
    (convert_to_local su = (get_day_boundaries td).2 → su ≤ tu →
      processParsed td tmd su tu n d =
        ([ScheduleEntry.mk n "" (get_day_boundaries td).2
            (get_day_boundaries td).2 d], [])) ∧
    (convert_to_local tu = (get_day_boundaries td).1 →
      localDate (convert_to_local su) < localDate td →
      processParsed td tmd su tu n d =
        ([ScheduleEntry.mk n "" (get_day_boundaries td).1
            (get_day_boundaries td).1 d], [])) := by
  simp only [get_day_boundaries, convert_to_local, localDate, usPerDay,
    tzOffsetUs] at hadj ⊢
  constructor
  · intro hs hle
    simp only [processParsed, get_day_boundaries, convert_to_local, localDate,
      usPerDay, tzOffsetUs]
    split_ifs <;>
      first
      | (exfalso; omega)
      | (simp only [Prod.mk.injEq, List.cons.injEq, ScheduleEntry.mk.injEq,
          and_true, true_and]
         omega)
  · intro ht hlt
    simp only [processParsed, get_day_boundaries, convert_to_local, localDate,
      usPerDay, tzOffsetUs]
    split_ifs <;>
      first
      | (exfalso; omega)
      | (simp only [Prod.mk.injEq, List.cons.injEq, ScheduleEntry.mk.injEq,
          and_true, true_and]
         omega)

/-- C6 amended witness: today = 2025-12-17 local, tomorrow = 2025-12-18
local, and a programme starting exactly at today's sentinel window end:
the emitted entry is the zero-duration [window_end, window_end]. -/
theorem boundary_touch_zero_duration_witness :
    localDate 1766016000000000 = localDate 1765929600000000 + 1 ∧
    convert_to_local 1766026799999999 =
      (get_day_boundaries 1765929600000000).2 ∧
    (1766026799999999 : Int) ≤ 1766028599999999 ∧
    processParsed 1765929600000000 1766016000000000 1766026799999999
        1766028599999999 "S" "" =
      ([ScheduleEntry.mk "S" "" (get_day_boundaries 1765929600000000).2
          (get_day_boundaries 1765929600000000).2 ""], []) :=
  ⟨by decide, by decide, by decide,
    (boundary_touch_zero_duration 1765929600000000 1766016000000000
        1766026799999999 1766028599999999 "S" "" (by decide)).1
      (by decide) (by decide)⟩

/-- Helper: the accumulator-passing loop of process_channel concatenates,
in feed order, the contributions of the individual records. -/
theorem foldl_clip_append (td tmd : Int) (ps : List ProgrammeRecord)
    (acc : List ScheduleEntry × List ScheduleEntry) :
    ps.foldl
      (fun acc p =>
        let r := processProgramme td tmd p
        (acc.1 ++ r.1, acc.2 ++ r.2))
      acc =
    (acc.1 ++ ps.flatMap (fun p => (processProgramme td tmd p).1),
     acc.2 ++ ps.flatMap (fun p => (processProgramme td tmd p).2)) := by
  induction ps generalizing acc with
  | nil => simp
  | cons p ps ih => simp [ih, List.append_assoc]

/-- C7 counterexample: with the feed listing the 14:00 programme before
the 09:00 programme (2025-12-18 local), the emitted today sequence keeps
that order, so it is not sorted by display_start ascending. -/
theorem feed_order_not_sorted :
    (process_channel 1766016000000000 1766102400000000
        [ProgrammeRecord.mk (some "20251218170000 +0000")
          (some "20251218180000 +0000") (some "A") none,
         ProgrammeRecord.mk (some "20251218120000 +0000")
          (some "20251218130000 +0000") (some "B") none]).1 =
      [ScheduleEntry.mk "A" "" 1766066400000000 1766070000000000 "",
       ScheduleEntry.mk "B" "" 1766048400000000 1766052000000000 ""] ∧
    ¬ List.Pairwise (fun a b => a.start_time ≤ b.start_time)
        (process_channel 1766016000000000 1766102400000000
          [ProgrammeRecord.mk (some "20251218170000 +0000")
            (some "20251218180000 +0000") (some "A") none,
           ProgrammeRecord.mk (some "20251218120000 +0000")
            (some "20251218130000 +0000") (some "B") none]).1 := by decide

/-- C7 amended: process_channel performs no sort: the emitted today and
tomorrow sequences are exactly the in-feed-order concatenation of each
record's contributions, so the output is sorted by display_start only
when the feed happens to be. -/
theorem process_channel_feed_order (td tmd : Int)
    (ps : List ProgrammeRecord) :
    process_channel td tmd ps =
      (ps.flatMap (fun p => (processProgramme td tmd p).1),
       ps.flatMap (fun p => (processProgramme td tmd p).2)) := by
  unfold process_channel
  rw [foldl_clip_append]
  simp

/-- C9: a record whose start or stop timestamp fails to parse contributes
nothing, and removing it from the channel's feed leaves the processing of
every other record unchanged: one malformed record never aborts the
channel's run. -/
theorem malformed_record_skipped (td tmd : Int)
    (xs ys : List ProgrammeRecord) (p : ProgrammeRecord)
    (h : p.start.bind parse_xmltv_time = none ∨
      p.stop.bind parse_xmltv_time = none) :
    process_channel td tmd (xs ++ p :: ys) = process_channel td tmd (xs ++ ys) := by
  have hp : processProgramme td tmd p = ([], []) := by
    unfold processProgramme
    rcases h with h | h
    · rw [h]
    · cases hs : p.start.bind parse_xmltv_time <;> rw [h]
  unfold process_channel
  rw [foldl_clip_append, foldl_clip_append]
  simp [hp]

/-- C9 witness: a channel feed of two well-formed records with a record
whose timestamps are the unparseable string "garbage" between them:
processing it equals processing the feed without the bad record. -/
theorem malformed_record_skipped_witness :
    ((ProgrammeRecord.mk (some "garbage") (some "garbage") (some "T")
        none).start.bind parse_xmltv_time = none ∨
      (ProgrammeRecord.mk (some "garbage") (some "garbage") (some "T")
        none).stop.bind parse_xmltv_time = none) ∧
    process_channel 1766016000000000 1766102400000000
        ([ProgrammeRecord.mk (some "20251218120000 +0000")
            (some "20251218130000 +0000") (some "B") none] ++
          ProgrammeRecord.mk (some "garbage") (some "garbage") (some "T")
            none ::
          [ProgrammeRecord.mk (some "20251218170000 +0000")
            (some "20251218180000 +0000") (some "A") none]) =
      process_channel 1766016000000000 1766102400000000
        ([ProgrammeRecord.mk (some "20251218120000 +0000")
            (some "20251218130000 +0000") (some "B") none] ++
          [ProgrammeRecord.mk (some "20251218170000 +0000")
            (some "20251218180000 +0000") (some "A") none]) :=
  ⟨Or.inl (by decide),
    malformed_record_skipped 1766016000000000 1766102400000000
      [ProgrammeRecord.mk (some "20251218120000 +0000")
        (some "20251218130000 +0000") (some "B") none]
      [ProgrammeRecord.mk (some "20251218170000 +0000")
        (some "20251218180000 +0000") (some "A") none]
      (ProgrammeRecord.mk (some "garbage") (some "garbage") (some "T") none)
      (Or.inl (by decide))⟩

/-- Helper: every entry emitted by the post-parse branch carries exactly
the show_name and episode_description computed before the branch, and an
empty show_logo. -/
theorem processParsed_fields (td tmd su tu : Int) (n d : String)
    (e : ScheduleEntry)
    (he : e ∈ (processParsed td tmd su tu n d).1 ∨
      e ∈ (processParsed td tmd su tu n d).2) :
    e.show_name = n ∧ e.show_logo = "" ∧ e.episode_description = d := by
  simp only [processParsed] at he
  split_ifs at he <;>
    rcases he with he | he <;>
    simp only [List.mem_singleton, List.not_mem_nil] at he <;>
    subst he <;>
    exact ⟨rfl, rfl, rfl⟩

/-- C10: every emitted entry has a non-empty show name; a record whose
title element is missing or has empty text yields the show name
"Unknown", and a missing or empty description yields the empty string. -/
theorem title_description_defaults (td tmd : Int) (p : ProgrammeRecord)
    (e : ScheduleEntry)
    (he : e ∈ (processProgramme td tmd p).1 ∨
      e ∈ (processProgramme td tmd p).2) :
    e.show_name ≠ "" ∧
    ((p.title = none ∨ p.title = some "") → e.show_name = "Unknown") ∧
    ((p.desc = none ∨ p.desc = some "") → e.episode_description = "") := by
  unfold processProgramme at he
  cases hs : p.start.bind parse_xmltv_time with
  | none => rw [hs] at he; simp at he
  | some su =>
    cases ht : p.stop.bind parse_xmltv_time with
    | none => rw [hs, ht] at he; simp at he
    | some tu =>
      rw [hs, ht] at he
      obtain ⟨h1, h2, h3⟩ := processParsed_fields td tmd su tu
        (showNameFrom p.title) (descFrom p.desc) e he
      refine ⟨?_, ?_, ?_⟩
      · rw [h1]
        cases hT : p.title with
        | none => simp [showNameFrom]
        | some s =>
          by_cases hs0 : s = "" <;> simp [showNameFrom, hs0]
      · intro hT
        rw [h1]
        rcases hT with hT | hT <;> rw [hT] <;> rfl
      · intro hD
        rw [h3]
        rcases hD with hD | hD <;> rw [hD] <;> rfl

/-- C10 witness: a record with no title element and no description, whose
programme airs 09:00-10:00 local on the today target date: the emitted
entry has show name "Unknown" and empty description. -/
theorem title_description_defaults_witness :
    (ScheduleEntry.mk "Unknown" "" 1766048400000000 1766052000000000 "" ∈
        (processProgramme 1766016000000000 1766102400000000
          (ProgrammeRecord.mk (some "20251218120000 +0000")
            (some "20251218130000 +0000") none none)).1 ∨
      ScheduleEntry.mk "Unknown" "" 1766048400000000 1766052000000000 "" ∈
        (processProgramme 1766016000000000 1766102400000000
          (ProgrammeRecord.mk (some "20251218120000 +0000")
            (some "20251218130000 +0000") none none)).2) ∧
    ((ScheduleEntry.mk "Unknown" "" 1766048400000000 1766052000000000
        "").show_name ≠ "" ∧
      (((ProgrammeRecord.mk (some "20251218120000 +0000")
            (some "20251218130000 +0000") none none).title = none ∨
          (ProgrammeRecord.mk (some "20251218120000 +0000")
            (some "20251218130000 +0000") none none).title = some "") →
        (ScheduleEntry.mk "Unknown" "" 1766048400000000 1766052000000000
          "").show_name = "Unknown") ∧
      (((ProgrammeRecord.mk (some "20251218120000 +0000")
            (some "20251218130000 +0000") none none).desc = none ∨
          (ProgrammeRecord.mk (some "20251218120000 +0000")
            (some "20251218130000 +0000") none none).desc = some "") →
        (ScheduleEntry.mk "Unknown" "" 1766048400000000 1766052000000000
          "").episode_description = "")) :=
  ⟨Or.inl (by decide),
    title_description_defaults 1766016000000000 1766102400000000
      (ProgrammeRecord.mk (some "20251218120000 +0000")
        (some "20251218130000 +0000") none none)
      (ScheduleEntry.mk "Unknown" "" 1766048400000000 1766052000000000 "")
      (Or.inl (by decide))⟩
